import Mathlib

/-!
Verification of the algorithm object model and dispatch framework of the
oneDAL excerpt: the z-score normalization `Batch` / `BatchImpl` class
hierarchy (`src/cpp/daal/src/algorithms/normalization/zscore/inner/zscore_v2.h`)
and the Xavier initializer task descriptor
(`src/algorithms/kernel/neural_networks/initializers/xavier/xavier_initializer_task_descriptor.cpp`).

Shallow embedding conventions:
* `SharedPtr<T>` handles and raw `T *` pointers are modelled as `Option Nat`:
  `none` is the null pointer, `some i` is a pointer to the heap object with
  identity `i`.  Pointer equality is identity of the pointed-to object.
* Heap-allocated `Result` objects live in a `Heap` (a list indexed by object
  id); allocation appends, so `h.objs.length` is the next fresh id.
* Each algorithm instance carries an identity `id : Nat` standing for its
  `this` pointer; a pointer to a data member of the instance (such as
  `&parameter` or `&input`) is modelled by the owner's `id`.
* Template arguments `algorithmFPType` and `Method` are value fields fixed at
  construction, mirroring that a C++ object's template instantiation never
  changes.
-/

/-- Error identifiers of `services::Status`.  Only the one used by the
excerpted code is needed. -/
inductive ErrorID where
  | ErrorNullResult
  deriving DecidableEq, Repr

/-- `services::Status`: an aggregable collection of error descriptors; the
empty collection is success. -/
structure Status where
  errors : List ErrorID
  deriving DecidableEq, Repr

/-- The empty (success) Status, `services::Status()`. -/
def Status.ok : Status := ⟨[]⟩

/-- `Status.isOk`: true iff the Status carries no errors. -/
def Status.isOk (s : Status) : Bool := s.errors.isEmpty

/-- Numeric precision template argument `algorithmFPType` (double or float). -/
inductive FPType where
  | float
  | double
  deriving DecidableEq, Repr

/-- `daal::algorithms::normalization::zscore::Method` computation methods. -/
inductive Method where
  | defaultDense
  | sumDense
  deriving DecidableEq, Repr

/-- CPU capability tier recorded in the Environment
(`daal::services::Environment::env`). -/
inductive CpuType where
  | sse2
  | sse42
  | avx2
  | avx512
  deriving DecidableEq, Repr

/-- Execution environment descriptor: carries the detected CPU tier used by
the `__DAAL_ALGORITHM_CONTAINER` dispatch macro. -/
structure Env where
  cpu : CpuType
  deriving DecidableEq, Repr

/-- `zscore::interface2::BatchContainer` instantiation data: one container per
(precision, method, CPU tier) combination.  Modelled from the spec: the
container class body (kernel dispatch) is outside the excerpt; only the
selection key matters for the claims. -/
structure BatchContainer where
  fp : FPType
  m : Method
  cpu : CpuType
  deriving DecidableEq, Repr

/-- `__DAAL_ALGORITHM_CONTAINER(batch, BatchContainer, algorithmFPType,
method)(&_env)`: constructs the container for the declared precision and
method and the environment's CPU tier.  Modelled from the spec: "Selection is
static (decided once, at construction, from the declared template/generic
arguments and the Environment's detected CPU tier)". -/
def mkContainer (fp : FPType) (m : Method) (env : Env) : BatchContainer :=
  ⟨fp, m, env.cpu⟩

/-- `zscore::Input`: value-typed container of references to external data
objects.  Modelled from the spec ("value-typed container of references to
external data objects"): the field definitions live in `zscore_types_v2.h`,
outside the excerpt; one reference field suffices for the claims (copying the
structure copies the reference). -/
structure Input where
  dataTable : Option Nat := none
  deriving DecidableEq, Repr

/-- `zscore::BaseParameter`: base view of the z-score parameter.  Modelled
from the spec ("Parameter (base + per-method extension)"): field definitions
live in `zscore_types_v2.h`, outside the excerpt. -/
structure BaseParameter where
  resultsToCompute : Nat := 0
  deriving DecidableEq, Repr

/-- `zscore::Parameter<algorithmFPType, method>`: the method-specific
parameter, extending the base view.  Modelled from the spec; the extension
field is a placeholder for method-specific configuration. -/
structure Param extends BaseParameter where
  methodSpecific : Int := 0
  deriving DecidableEq, Repr

/-- `zscore::Result` object contents.  Modelled from the spec ("Result:
heap-allocated, reference-counted output container; starts empty"): the field
definitions live in `zscore_types_v2.h`, outside the excerpt.  `storage =
none` is the default-constructed (empty, unallocated) state. -/
structure ResultObj where
  storage : Option Nat := none
  deriving DecidableEq, Repr

/-- The default-constructed Result object, `new ResultType()`. -/
def ResultObj.empty : ResultObj := {}

/-- Heap of reference-counted `Result` objects; an object's id is its index,
allocation appends. -/
structure Heap where
  objs : List ResultObj
  deriving DecidableEq, Repr

/-- Allocate a new object on the heap, returning the extended heap and the
fresh object's id. -/
def Heap.alloc (h : Heap) (o : ResultObj) : Heap × Nat :=
  (⟨h.objs ++ [o]⟩, h.objs.length)

/-- Read the object with id `i`, if allocated. -/
def Heap.get (h : Heap) (i : Nat) : Option ResultObj :=
  h.objs.get? i

/-- Overwrite the object with id `i` (in-place mutation through a pointer). -/
def Heap.set (h : Heap) (i : Nat) (o : ResultObj) : Heap :=
  ⟨h.objs.set i o⟩

/-- State of a `zscore::interface2::Batch<algorithmFPType, method>` algorithm
instance, flattening the `Batch → BatchImpl → Analysis<batch>` hierarchy.
`input` and `parameter` are the value-owned members declared in
`zscore_v2.h`; `_result` is `BatchImpl::_result` (a `ResultPtr`); `_res`,
`_par`, `_in`, `_ac` are the cached raw pointers and the container pointer
inherited from the `Analysis<batch>` base (declared in `algorithm.h`, outside
the excerpt; modelled from the spec: "holds an opaque pointer to its bound
Container" and the cached-pointer design note).  `id` is the instance's
identity (its `this` pointer); `fpType` and `method` are the template
arguments; `env` is the `_env` member used for container selection. -/
structure Batch where
  id : Nat
  fpType : FPType
  method : Method
  env : Env
  input : Input
  parameter : Param
  _result : Option Nat
  _res : Option Nat
  _par : Option Nat
  _in : Option Nat
  _ac : Option BatchContainer
  deriving DecidableEq, Repr

/-- `BatchImpl::initialize()` (zscore_v2.h lines 138-142): allocates a fresh
default-constructed Result on the heap, stores the handle in `_result`, and
points the cached `_in` at the instance's own `input` member. -/
def implInit (b : Batch) (h : Heap) : Batch × Heap :=
  let (h1, rid) := h.alloc ResultObj.empty
  ({ b with _result := some rid, _in := some b.id }, h1)

/-- `Batch::initialize()` (zscore_v2.h lines 213-217): creates the container
for the declared precision/method and the environment, stores it in `_ac`,
and points the cached `_par` at the instance's own `parameter` member. -/
def batchInit (b : Batch) : Batch :=
  { b with _ac := some (mkContainer b.fpType b.method b.env),
           _par := some b.id }

/-- The zero/default state of the `Analysis<batch>` base sub-object before
any `initialize` call: all cached pointers and the container pointer are
null.  Modelled from the spec (the base-class default construction is outside
the excerpt; the cached-pointer design note treats unset caches as null). -/
def rawBatch (fp : FPType) (m : Method) (env : Env) (selfId : Nat)
    (inp : Input) (par : Param) : Batch :=
  { id := selfId, fpType := fp, method := m, env := env,
    input := inp, parameter := par,
    _result := none, _res := none, _par := none, _in := none, _ac := none }

/-- `Batch::Batch()` default constructor (zscore_v2.h line 173): the
`BatchImpl()` base constructor (line 88) runs `BatchImpl::initialize()`, the
`parameter` member is default-constructed, then the body runs
`Batch::initialize()`. -/
def mkBatch (fp : FPType) (m : Method) (env : Env) (selfId : Nat) (h : Heap) :
    Batch × Heap :=
  let (b1, h1) := implInit (rawBatch fp m env selfId {} {}) h
  (batchInit b1, h1)

/-- `Batch::Batch(const Batch & other)` copy constructor (zscore_v2.h line
180): the `BatchImpl(other)` base constructor (line 97) copies `input` by
value and runs `BatchImpl::initialize()`; `parameter(other.parameter)` copies
the parameter by value; the body runs `Batch::initialize()`.  `env` is the
ambient environment at construction time and `selfId` the new instance's
identity. -/
def copyBatch (src : Batch) (env : Env) (selfId : Nat) (h : Heap) :
    Batch × Heap :=
  let (b1, h1) :=
    implInit (rawBatch src.fpType src.method env selfId src.input src.parameter) h
  (batchInit b1, h1)

/-- `Batch::clone()` (zscore_v2.h lines 201, 204): `cloneImpl()` allocates
`new Batch<algorithmFPType, method>(*this)`; the source instance is left
untouched. -/
def Batch.clone (b : Batch) (env : Env) (newId : Nat) (h : Heap) :
    Batch × Heap :=
  copyBatch b env newId h

/-- `BatchImpl::getResult()` (zscore_v2.h line 103): `return _result;` —
returns the current Result handle and leaves the instance unchanged. -/
def Batch.getResult (b : Batch) : Option Nat × Batch :=
  (b._result, b)

/-- `BatchImpl::setResult(const ResultPtr & result)` (zscore_v2.h lines
115-121): `DAAL_CHECK(result, services::ErrorNullResult)` returns
`Status(ErrorNullResult)` when the handle is empty; otherwise `_result =
result; _res = _result.get();` and an empty Status is returned. -/
def Batch.setResult (b : Batch) (r : Option Nat) : Status × Batch :=
  match r with
  | none => (⟨[ErrorID.ErrorNullResult]⟩, b)
  | some i => (Status.ok, { b with _result := some i, _res := some i })

/-- Pointer to the base-`BaseParameter` sub-object of an instance's own
`parameter` member, as returned by `getParameter`; `owner` is the identity of
the owning instance. -/
structure BaseParamPtr where
  owner : Nat
  deriving DecidableEq, Repr

/-- `Batch::getParameter()` (zscore_v2.h line 188, overriding the pure
virtual `BatchImpl::getParameter()` of line 109): `return &parameter;` — the
address of the instance's own method-specific parameter, implicitly upcast to
`BaseParameter *`. -/
def Batch.getParameter (b : Batch) : BaseParamPtr :=
  ⟨b.id⟩

/-- Dereference a `BaseParamPtr` against an instance: yields the base view of
that instance's `parameter` member when the pointer refers to it, nothing
otherwise (the pointer dangles elsewhere). -/
def BaseParamPtr.deref (p : BaseParamPtr) (b : Batch) : Option BaseParameter :=
  if p.owner = b.id then some b.parameter.toBaseParameter else none

/-- Type of `Result::allocate<algorithmFPType>(&input, &parameter, method)`:
given the precision type argument, the input, the parameter and the method it
resizes/materializes the Result object and reports a Status.  The body lives
in `zscore_types_v2.h`, outside the excerpt, so the framework claims are
proved for every such function. -/
def AllocFn : Type :=
  FPType → Input → Param → Method → ResultObj → Status × ResultObj

/-- `Batch::allocateResult()` (zscore_v2.h lines 206-211):
`services::Status s = _result->allocate<algorithmFPType>(&input, &parameter,
method); _res = _result.get(); return s;` — invokes `allocate` on the object
`_result` points to with the instance's own input, parameter and method,
refreshes the cached `_res`, and returns the Status from `allocate`. -/
def Batch.allocateResult (f : AllocFn) (b : Batch) (h : Heap) :
    Status × Batch × Heap :=
  let i := b._result.getD 0
  let obj := (h.get i).getD ResultObj.empty
  let (s, obj2) := f b.fpType b.input b.parameter b.method obj
  (s, { b with _res := b._result }, h.set i obj2)

/-!
## Xavier initializer task descriptor
-/

/-- `initializers::xavier::Parameter` as used by the task-descriptor
constructor: carries the shared-pointer handles to the random-number engine
and to the layer being initialized.  Modelled from the spec ("Parameter ...
additionally holds a non-owning reference to a random-number engine and to a
layer"); each handle is `none` when absent, `some i` when it references the
object with identity `i`. -/
structure XavierParameter where
  engine : Option Nat
  layer : Option Nat
  deriving DecidableEq, Repr

/-- `initializers::ResultId`: identifiers of initializer results; the
excerpted code uses only `initializers::value`. -/
inductive InitializerResultId where
  | value
  deriving DecidableEq, Repr

/-- `initializers::Result` as used by the task-descriptor constructor: a
keyed collection whose `value` entry is the shared-pointer handle to the
output tensor.  Modelled from the spec ("the target output buffer inside the
Result"); the full class lives outside the excerpt. -/
structure XavierResult where
  valueEntry : Option Nat
  deriving DecidableEq, Repr

/-- `Result::get(initializers::value)`: the collection lookup. -/
def XavierResult.get (re : XavierResult) (_ : InitializerResultId) :
    Option Nat :=
  re.valueEntry

/-- `xavier::internal::XavierInitializerTaskDescriptor`: three raw non-owning
pointers stored for the kernel body.  The field list is modelled from the
spec ("holds non-owning references ... into the engine, the layer, and the
result buffer"); the constructor body below is from the excerpted `.cpp`. -/
structure XavierInitializerTaskDescriptor where
  engine : Option Nat
  layer : Option Nat
  result : Option Nat
  deriving DecidableEq, Repr

/-- `XavierInitializerTaskDescriptor::XavierInitializerTaskDescriptor(Result
*re, Parameter *pa)` (xavier_initializer_task_descriptor.cpp lines 33-38):
`engine = pa->engine.get(); layer = pa->layer.get(); result =
re->get(initializers::value).get();`.  The `re` and `pa` pointers themselves
are dereferenced unconditionally, so the model takes the pointed-to values;
each `.get()` on a shared-pointer handle yields the raw pointer, null when
the handle is empty. -/
def XavierInitializerTaskDescriptor.construct (re : XavierResult)
    (pa : XavierParameter) : XavierInitializerTaskDescriptor :=
  { engine := pa.engine
    layer := pa.layer
    result := re.get InitializerResultId.value }

/-!
## Reachable states and invariants
-/

/-- Instance states reachable by the excerpted operations: default
construction, copy construction (also `clone`), `setResult`, and
`allocateResult` (`getResult` and `getParameter` do not change the state). -/
inductive Reach : Batch → Prop where
  | ctor (fp : FPType) (m : Method) (env : Env) (selfId : Nat) (h : Heap) :
      Reach ((mkBatch fp m env selfId h).1)
  | copy (b : Batch) (env : Env) (selfId : Nat) (h : Heap) :
      Reach b → Reach ((copyBatch b env selfId h).1)
  | setRes (b : Batch) (r : Option Nat) :
      Reach b → Reach ((b.setResult r).2)
  | allocRes (f : AllocFn) (b : Batch) (h : Heap) :
      Reach b → Reach ((b.allocateResult f h).2.1)

/-- Cached-pointer coherence: `_par` and `_in` point at the instance's own
`parameter` and `input` members, and the cached raw result pointer `_res` is
either still unset or agrees with the `_result` handle. -/
def Coh (b : Batch) : Prop :=
  b._par = some b.id ∧ b._in = some b.id ∧
    (b._res = none ∨ b._res = b._result)

/-!
## Claim theorems
-/

/-- C1: `setResult(r)` fails with `ErrorNullResult` and leaves the instance
(including its `_result` handle and cached `_res` pointer) unchanged when `r`
is the empty handle; when `r` is non-empty it installs `r` as the new
`_result` handle, refreshes `_res`, and returns the empty (success)
Status. -/
theorem setResult_contract (b : Batch) (r : Option Nat) :
    (r = none →
      (b.setResult r).1 = ⟨[ErrorID.ErrorNullResult]⟩ ∧
      ((b.setResult r).2)._result = b._result ∧
      ((b.setResult r).2)._res = b._res ∧
      (b.setResult r).2 = b) ∧
    (∀ i, r = some i →
      (b.setResult r).1 = Status.ok ∧
      ((b.setResult r).2)._result = some i ∧
      ((b.setResult r).2)._res = some i) := by
  constructor
  · rintro rfl
    exact ⟨rfl, rfl, rfl, rfl⟩
  · rintro i rfl
    exact ⟨rfl, rfl, rfl⟩

theorem setResult_contract_witness :
    (Batch.setResult (mkBatch FPType.float Method.defaultDense ⟨CpuType.avx2⟩ 0 ⟨[]⟩).1
        none).1 = ⟨[ErrorID.ErrorNullResult]⟩ ∧
    (Batch.setResult (mkBatch FPType.float Method.defaultDense ⟨CpuType.avx2⟩ 0 ⟨[]⟩).1
        (some 5)).1 = Status.ok :=
  ⟨((setResult_contract (mkBatch FPType.float Method.defaultDense ⟨CpuType.avx2⟩ 0 ⟨[]⟩).1
      none).1 rfl).1,
   ((setResult_contract (mkBatch FPType.float Method.defaultDense ⟨CpuType.avx2⟩ 0 ⟨[]⟩).1
      (some 5)).2 5 rfl).1⟩

/-- C2: `clone()` yields an instance of the same concrete type (same
precision and method arguments) with `input` and `parameter` copied by value
and a brand-new default-constructed Result object distinct from the source's
Result — for every source state, including one whose Result object the heap
already holds populated after a successful `compute()`.  The well-formedness
hypothesis says the source's Result handle points into the heap. -/
theorem clone_fresh_empty_result (b : Batch) (env : Env) (newId : Nat) (h : Heap)
    (wf : ∀ i, b._result = some i → i < h.objs.length) :
    ((b.clone env newId h).1).fpType = b.fpType ∧
    ((b.clone env newId h).1).method = b.method ∧
    ((b.clone env newId h).1).input = b.input ∧
    ((b.clone env newId h).1).parameter = b.parameter ∧
    ((b.clone env newId h).1)._result = some h.objs.length ∧
    ((b.clone env newId h).2).get h.objs.length = some ResultObj.empty ∧
    ((b.clone env newId h).1)._result ≠ b._result ∧
    (∀ i, b._result = some i → ((b.clone env newId h).2).get i = h.get i) := by
  refine ⟨rfl, rfl, rfl, rfl, rfl, ?_, ?_, ?_⟩
  · simp [Batch.clone, copyBatch, implInit, Heap.alloc, Heap.get]
  · have hval : ((b.clone env newId h).1)._result = some h.objs.length := rfl
    rw [hval]
    cases hb : b._result with
    | none => simp
    | some i =>
        have hi := wf i hb
        simp only [ne_eq, Option.some.injEq]
        omega
  · intro i hb
    have hi := wf i hb
    simp [Batch.clone, copyBatch, implInit, Heap.alloc, Heap.get,
      List.getElem?_append_left hi]

theorem clone_fresh_empty_result_witness :
    (((mkBatch FPType.float Method.defaultDense ⟨CpuType.avx2⟩ 0 ⟨[]⟩).1.clone
        ⟨CpuType.avx2⟩ 1 ⟨[⟨some 42⟩]⟩).1)._result
      ≠ ((mkBatch FPType.float Method.defaultDense ⟨CpuType.avx2⟩ 0 ⟨[]⟩).1)._result ∧
    (((mkBatch FPType.float Method.defaultDense ⟨CpuType.avx2⟩ 0 ⟨[]⟩).1.clone
        ⟨CpuType.avx2⟩ 1 ⟨[⟨some 42⟩]⟩).2).get 1 = some ResultObj.empty := by
  have hw := clone_fresh_empty_result
    (mkBatch FPType.float Method.defaultDense ⟨CpuType.avx2⟩ 0 ⟨[]⟩).1
    ⟨CpuType.avx2⟩ 1 ⟨[⟨some 42⟩]⟩
    (by
      intro i hi
      simp [mkBatch, implInit, batchInit, rawBatch, Heap.alloc] at hi
      show i < 1
      omega)
  exact ⟨hw.2.2.2.2.2.2.1, hw.2.2.2.2.2.1⟩

/-- C3: the task-descriptor constructor stores exactly the raw pointers
obtained from the Parameter's engine handle, the Parameter's layer handle,
and the Result's `value` entry — the very same objects (same identities) the
Parameter and Result reference, with no duplication and no check of its
own. -/
theorem xavierDescriptor_identity (re : XavierResult) (pa : XavierParameter) :
    (XavierInitializerTaskDescriptor.construct re pa).engine = pa.engine ∧
    (XavierInitializerTaskDescriptor.construct re pa).layer = pa.layer ∧
    (XavierInitializerTaskDescriptor.construct re pa).result
      = re.get InitializerResultId.value :=
  ⟨rfl, rfl, rfl⟩

/-- C4: the bound container is created exactly once, inside `initialize()`
during construction, from the declared precision and method arguments and the
environment; `setResult`, `getResult`, and `allocateResult` leave the
container pointer `_ac` untouched (and `getParameter` and `clone` do not
modify the instance at all: they are pure in it). -/
theorem container_fixed_at_construction :
    (∀ (fp : FPType) (m : Method) (env : Env) (selfId : Nat) (h : Heap),
      ((mkBatch fp m env selfId h).1)._ac = some (mkContainer fp m env)) ∧
    (∀ (b : Batch) (env : Env) (selfId : Nat) (h : Heap),
      ((copyBatch b env selfId h).1)._ac
        = some (mkContainer b.fpType b.method env)) ∧
    (∀ (b : Batch) (r : Option Nat), ((b.setResult r).2)._ac = b._ac) ∧
    (∀ (b : Batch), ((b.getResult).2)._ac = b._ac) ∧
    (∀ (f : AllocFn) (b : Batch) (h : Heap),
      ((b.allocateResult f h).2.1)._ac = b._ac) := by
  refine ⟨fun _ _ _ _ _ => rfl, fun _ _ _ _ => rfl, ?_, fun _ => rfl, ?_⟩
  · intro b r
    cases r <;> rfl
  · intro f b h
    simp [Batch.allocateResult]

/-- C5: `allocateResult()` calls the Result object's `allocate` with exactly
the instance's current input, current parameter and method, using its numeric
precision as the type argument; it refreshes the cached `_res` pointer (the
only change to the instance) and returns precisely the Status produced by the
`allocate` call, for every possible `allocate` implementation. -/
theorem allocateResult_contract (f : AllocFn) (b : Batch) (h : Heap) (i : Nat)
    (hres : b._result = some i) :
    (b.allocateResult f h).1
      = (f b.fpType b.input b.parameter b.method
          ((h.get i).getD ResultObj.empty)).1 ∧
    (b.allocateResult f h).2.1 = { b with _res := b._result } ∧
    (b.allocateResult f h).2.2
      = h.set i (f b.fpType b.input b.parameter b.method
          ((h.get i).getD ResultObj.empty)).2 := by
  simp [Batch.allocateResult, hres]

theorem allocateResult_contract_witness :
    (Batch.allocateResult (fun _ _ _ _ o => (Status.ok, { o with storage := some 1 }))
      (mkBatch FPType.double Method.sumDense ⟨CpuType.sse2⟩ 3 ⟨[]⟩).1
      ⟨[ResultObj.empty]⟩).1 = Status.ok := by
  have hw := allocateResult_contract
    (fun _ _ _ _ o => (Status.ok, { o with storage := some 1 }))
    (mkBatch FPType.double Method.sumDense ⟨CpuType.sse2⟩ 3 ⟨[]⟩).1
    ⟨[ResultObj.empty]⟩ 0 rfl
  exact hw.1

/-- C6: `getResult()` returns the instance's current `_result` handle as-is
— whatever state the instance is in, allocated or not — and leaves the
instance unchanged (its signature touches no heap, so it neither allocates
nor validates nor modifies the Result). -/
theorem getResult_as_is (b : Batch) :
    (b.getResult).1 = b._result ∧ (b.getResult).2 = b :=
  ⟨rfl, rfl⟩

/-- C7: `getParameter()` returns a pointer to the instance's own `parameter`
member upcast to the base `BaseParameter` view — dereferencing it against the
instance yields the base view of that very field — and does so for every
precision and method argument. -/
theorem getParameter_base_view :
    (∀ b : Batch, (b.getParameter).owner = b.id ∧
      (b.getParameter).deref b = some b.parameter.toBaseParameter) ∧
    (∀ (fp : FPType) (m : Method) (env : Env) (selfId : Nat) (h : Heap),
      ((mkBatch fp m env selfId h).1).getParameter = ⟨selfId⟩) := by
  refine ⟨fun b => ⟨rfl, ?_⟩, fun _ _ _ _ _ => rfl⟩
  simp [Batch.getParameter, BaseParamPtr.deref]

/-- C8: the Result handle of an instance is never null: both constructors
install a freshly allocated Result via `initialize()` and `setResult` rejects
the empty handle before assigning, so in every state reachable by the
excerpted operations `getResult()` returns a non-empty handle. -/
theorem getResult_never_null (b : Batch) (hb : Reach b) :
    ((b.getResult).1).isSome := by
  induction hb with
  | ctor fp m env selfId h =>
      simp [mkBatch, implInit, batchInit, rawBatch, Heap.alloc, Batch.getResult]
  | copy b env selfId h _ _ =>
      simp [copyBatch, implInit, batchInit, rawBatch, Heap.alloc, Batch.getResult]
  | setRes b r _ ih =>
      cases r with
      | none => simpa [Batch.setResult, Batch.getResult] using ih
      | some i => simp [Batch.setResult, Batch.getResult]
  | allocRes f b h _ ih =>
      simpa [Batch.allocateResult, Batch.getResult] using ih

theorem getResult_never_null_witness :
    (((mkBatch FPType.float Method.defaultDense ⟨CpuType.sse42⟩ 0 ⟨[]⟩).1.getResult).1).isSome :=
  getResult_never_null _
    (Reach.ctor FPType.float Method.defaultDense ⟨CpuType.sse42⟩ 0 ⟨[]⟩)

/-- C9: every reachable state satisfies cached-pointer coherence (`_par` and
`_in` point at the instance's own members, `_res` is unset or equals the
`_result` handle); a successful `setResult` and any `allocateResult` leave
`_res` equal to `_result.get()`; and copy construction re-runs the
`initialize` functions so the copy's cached pointers refer to the copy's own
members — its own identity, never the source's. -/
theorem cached_pointer_coherence :
    (∀ b : Batch, Reach b → Coh b) ∧
    (∀ (b : Batch) (r : Option Nat), (b.setResult r).1 = Status.ok →
      ((b.setResult r).2)._res = ((b.setResult r).2)._result) ∧
    (∀ (f : AllocFn) (b : Batch) (h : Heap),
      ((b.allocateResult f h).2.1)._res = ((b.allocateResult f h).2.1)._result) ∧
    (∀ (b : Batch) (env : Env) (selfId : Nat) (h : Heap),
      ((copyBatch b env selfId h).1)._par = some selfId ∧
      ((copyBatch b env selfId h).1)._in = some selfId) := by
  refine ⟨?_, ?_, ?_, fun _ _ _ _ => ⟨rfl, rfl⟩⟩
  · intro b hb
    induction hb with
    | ctor fp m env selfId h =>
        exact ⟨rfl, rfl, Or.inl rfl⟩
    | copy b env selfId h _ _ =>
        exact ⟨rfl, rfl, Or.inl rfl⟩
    | setRes b r _ ih =>
        cases r with
        | none => simpa [Batch.setResult] using ih
        | some i => exact ⟨ih.1, ih.2.1, Or.inr rfl⟩
    | allocRes f b h _ ih =>
        exact ⟨ih.1, ih.2.1, Or.inr rfl⟩
  · intro b r hok
    cases r with
    | none =>
        exfalso
        simp [Batch.setResult, Status.ok] at hok
    | some i => rfl
  · intro f b h
    rfl

theorem cached_pointer_coherence_witness :
    Coh (Batch.setResult (mkBatch FPType.double Method.defaultDense ⟨CpuType.avx512⟩ 2 ⟨[]⟩).1
      (some 9)).2 :=
  cached_pointer_coherence.1 _
    (Reach.setRes (mkBatch FPType.double Method.defaultDense ⟨CpuType.avx512⟩ 2 ⟨[]⟩).1
      (some 9)
      (Reach.ctor FPType.double Method.defaultDense ⟨CpuType.avx512⟩ 2 ⟨[]⟩))

/-- C10: given non-null Result and Parameter pointers, task-descriptor
construction is total and reports no error; when the engine handle, the layer
handle, or the Result's `value` entry is absent, the corresponding stored raw
pointer is silently null. -/
theorem xavierDescriptor_total_null (re : XavierResult) (pa : XavierParameter) :
    (pa.engine = none →
      (XavierInitializerTaskDescriptor.construct re pa).engine = none) ∧
    (pa.layer = none →
      (XavierInitializerTaskDescriptor.construct re pa).layer = none) ∧
    (re.get InitializerResultId.value = none →
      (XavierInitializerTaskDescriptor.construct re pa).result = none) :=
  ⟨fun hx => hx, fun hx => hx, fun hx => hx⟩

theorem xavierDescriptor_total_null_witness :
    (XavierInitializerTaskDescriptor.construct ⟨none⟩ ⟨none, none⟩).engine = none ∧
    (XavierInitializerTaskDescriptor.construct ⟨none⟩ ⟨none, none⟩).layer = none ∧
    (XavierInitializerTaskDescriptor.construct ⟨none⟩ ⟨none, none⟩).result = none :=
  ⟨(xavierDescriptor_total_null ⟨none⟩ ⟨none, none⟩).1 rfl,
   (xavierDescriptor_total_null ⟨none⟩ ⟨none, none⟩).2.1 rfl,
   (xavierDescriptor_total_null ⟨none⟩ ⟨none, none⟩).2.2 rfl⟩
